import Mathlib

/-!
Verification development for the batch record-migration scripts of the
gamecrafter-backoffice-backend repository.  The scripts are embedded as
pure Lean functions: database state is passed explicitly, the
transactional connection is a pair of tables (visible contents plus the
state at the last commit), exceptions raised by the driver are modelled
by a per-row failure predicate, and datetime.now() is modelled by
reading an ambient clock function at a call counter threaded through the
run.
-/

set_option maxRecDepth 4096

/-- Result of running a script: either it completes and reports its final
state, or it terminates the process via sys.exit with the given code. -/
inductive RunResult (α : Type) : Type where
  | report (st : α) : RunResult α
  | exited (code : Nat) : RunResult α
deriving Repr, DecidableEq

/-- Whether a run completed with a report rather than exiting the process. -/
def RunResult.isReport {α : Type} : RunResult α → Bool
  | .report _ => true
  | .exited _ => false

/-- Python str.strip() with no argument: remove leading and trailing
whitespace. -/
def pyStrip (s : String) : String :=
  String.mk (((s.data.dropWhile Char.isWhitespace).reverse.dropWhile Char.isWhitespace).reverse)

/-- Python str.strip applied to the double-quote character, as in the
script import_games.py: drop leading and trailing double-quote
characters. -/
def stripDQ (s : String) : String :=
  String.mk (((s.data.dropWhile (fun c => c = '"')).reverse.dropWhile (fun c => c = '"')).reverse)

/-- A CSV row as read by csv.DictReader in the game-import scripts.
row.get(col, '') yields the empty string when a column is absent, so an
absent field is modelled as the empty string. -/
structure CsvRow where
  game_id : String
  internal_name : String
  provider : String
deriving Repr, DecidableEq

/-- A row of the games table as written by the corrected and the simple
script (columns game_id, name, internal_name, provider,
integration_partner). -/
structure GameRow where
  game_id : String
  name : String
  internal_name : String
  provider : String
  integration_partner : String
deriving Repr, DecidableEq

/-- The sink connection: the table contents visible inside the current
transaction plus the contents at the last commit, which is the state
conn.rollback() restores. -/
structure TxTable where
  table : List GameRow
  saved : List GameRow
deriving Repr, DecidableEq

/-- conn.commit(): the visible contents become durable. -/
def TxTable.commit (t : TxTable) : TxTable := { t with saved := t.table }

/-- conn.rollback(): the visible contents revert to the last commit. -/
def TxTable.rollback (t : TxTable) : TxTable := { t with table := t.saved }

/-- INSERT INTO games ... ON CONFLICT (game_id) DO UPDATE: replaces the
row carrying the key when it is present, appends the row otherwise.
PostgreSQL reports an affected-row count of 1 in both arms (the DO
UPDATE arm counts the updated row), which psycopg2 exposes as
cursor.rowcount; the second component is that count. -/
def upsertRow : List GameRow → GameRow → List GameRow × Nat
  | [], r => ([r], 1)
  | g :: gs, r =>
    if g.game_id = r.game_id then (r :: gs, 1)
    else
      let p := upsertRow gs r
      (g :: p.1, p.2)

/-- Running state of import_games in scripts/import_games_corrected.py:
the connection, the 1-based row counter of the enumerate loop, and the
three counters imported_count, updated_count, error_count. -/
structure CorrectedState where
  tx : TxTable
  rowNum : Nat
  imported : Nat
  updated : Nat
  errors : Nat
deriving Repr, DecidableEq

/-- One iteration of the row loop of scripts/import_games_corrected.py
(lines 40-81), with the commit interval (the literal 100 of line 72) as
a parameter so that the effect of the batch boundary can be stated; the
script itself is the instance commitEvery = 100.  fail row = true models
cursor.execute raising for that row; the except branch then counts an
error and issues conn.rollback(), which reverts the connection to the
last commit.  A row whose game_id or internal_name is empty after
strip() is skipped before any statement is issued, counted in
error_count (the script prints a skip message for it). -/
def correctedStepB (commitEvery : Nat) (fail : CsvRow → Bool) (s : CorrectedState) (row : CsvRow) : CorrectedState :=
  let rowNum := s.rowNum + 1
  let game_id := pyStrip row.game_id
  let internal_name := pyStrip row.internal_name
  let provider := pyStrip row.provider
  if game_id = "" ∨ internal_name = "" then
    { s with rowNum := rowNum, errors := s.errors + 1 }
  else if fail row then
    { s with rowNum := rowNum, errors := s.errors + 1, tx := s.tx.rollback }
  else
    let game_name := internal_name
    let p := upsertRow s.tx.table ⟨game_id, game_name, internal_name, provider, "groovetech"⟩
    let s1 :=
      if p.2 = 1 then
        { s with rowNum := rowNum, imported := s.imported + 1, tx := { s.tx with table := p.1 } }
      else
        { s with rowNum := rowNum, updated := s.updated + 1, tx := { s.tx with table := p.1 } }
    if rowNum % commitEvery = 0 then { s1 with tx := s1.tx.commit } else s1

/-- The row-loop step of scripts/import_games_corrected.py as written,
committing every 100 rows. -/
def correctedStep : (CsvRow → Bool) → CorrectedState → CsvRow → CorrectedState :=
  correctedStepB 100

/-- Initial state of the corrected import against a given games table:
the connection is freshly opened, all counters zero. -/
def correctedInit (tbl : List GameRow) : CorrectedState := ⟨⟨tbl, tbl⟩, 0, 0, 0, 0⟩

/-- The full row loop of scripts/import_games_corrected.py with the
commit interval as a parameter, followed by the final conn.commit() of
line 84. -/
def correctedRunB (commitEvery : Nat) (fail : CsvRow → Bool) (tbl : List GameRow) (rows : List CsvRow) : CorrectedState :=
  let s := rows.foldl (correctedStepB commitEvery fail) (correctedInit tbl)
  { s with tx := s.tx.commit }

/-- import_games of scripts/import_games_corrected.py as written
(commit every 100 rows, final commit at the end). -/
def correctedRun (fail : CsvRow → Bool) (tbl : List GameRow) (rows : List CsvRow) : CorrectedState :=
  correctedRunB 100 fail tbl rows

/-- import_games of scripts/import_games_corrected.py with its outer
try: the outer handler only fires when connecting fails (it prints
"Database connection failed" and exits); every row-level exception is
caught by the inner per-row handler, so with a live connection the
function always reaches its final report. -/
def corrected_import (connOk : Bool) (fail : CsvRow → Bool) (tbl : List GameRow) (rows : List CsvRow) : RunResult CorrectedState :=
  if connOk then .report (correctedRun fail tbl rows) else .exited 1

/-- Plain INSERT INTO games as issued by scripts/import_games_simple.py:
the games table has a unique constraint on game_id (the ON CONFLICT
(game_id) clause of the sibling scripts requires one), so inserting a
key already visible in the transaction raises, modelled as none. -/
def plainInsert (table : List GameRow) (r : GameRow) : Option (List GameRow) :=
  if table.any (fun g => g.game_id == r.game_id) then none else some (table ++ [r])

/-- Running state of import_games in scripts/import_games_simple.py. -/
structure SimpleState where
  tx : TxTable
  rowNum : Nat
  imported : Nat
  errors : Nat
deriving Repr, DecidableEq

/-- One iteration of the row loop of scripts/import_games_simple.py
(lines 42-72): skip rows with an empty key, plain INSERT, errors counted
and answered with conn.rollback(), commit every 100 rows. -/
def simpleStep (fail : CsvRow → Bool) (s : SimpleState) (row : CsvRow) : SimpleState :=
  let rowNum := s.rowNum + 1
  let game_id := pyStrip row.game_id
  let internal_name := pyStrip row.internal_name
  let provider := pyStrip row.provider
  if game_id = "" ∨ internal_name = "" then
    { s with rowNum := rowNum, errors := s.errors + 1 }
  else if fail row then
    { s with rowNum := rowNum, errors := s.errors + 1, tx := s.tx.rollback }
  else
    match plainInsert s.tx.table ⟨game_id, internal_name, internal_name, provider, "groovetech"⟩ with
    | none => { s with rowNum := rowNum, errors := s.errors + 1, tx := s.tx.rollback }
    | some t =>
      let s1 := { s with rowNum := rowNum, imported := s.imported + 1, tx := { s.tx with table := t } }
      if rowNum % 100 = 0 then { s1 with tx := s1.tx.commit } else s1

/-- Whether a games row belongs to the groovetech integration partner. -/
def isGroove (g : GameRow) : Bool := g.integration_partner == "groovetech"

/-- import_games of scripts/import_games_simple.py: DELETE FROM games
WHERE integration_partner = 'groovetech' followed by a commit (lines
30-31), then the insert loop, then the final commit of line 75.  The
returned state's tx.saved is the committed table. -/
def simpleRun (fail : CsvRow → Bool) (tbl : List GameRow) (rows : List CsvRow) : SimpleState :=
  let cleared := tbl.filter (fun g => !(isGroove g))
  let s := rows.foldl (simpleStep fail) ⟨⟨cleared, cleared⟩, 0, 0, 0⟩
  { s with tx := s.tx.commit }

/-- A games row as inserted by import_games.py, timestamp column
included: datetime.now() is modelled by reading the ambient clock at the
call counter held in the run state. -/
structure GameRowT where
  name : String
  game_id : String
  internal_name : String
  integration_partner : String
  provider : String
  status : String
  enabled : Bool
  timestamp : Nat
deriving Repr, DecidableEq

/-- Running state of import_games in import_games.py: the table visible
in the single transaction of the run, the two counters imported_count
and skipped_count, and the number of datetime.now() calls made so far. -/
structure ImpState where
  table : List GameRowT
  inserted : Nat
  skipped : Nat
  calls : Nat
deriving Repr, DecidableEq

/-- One iteration of the row loop of import_games.py (lines 33-63):
strip double quotes from the fields, SELECT id FROM games WHERE game_id
= %s, skip when a row comes back, otherwise INSERT with status ACTIVE,
enabled true and timestamp datetime.now() (one clock call).  The whole
run is one transaction, so the existence check sees the rows inserted
earlier in the same run. -/
def impStep (clock : Nat → Nat) (s : ImpState) (row : CsvRow) : ImpState :=
  let game_id := stripDQ row.game_id
  let internal_name := stripDQ row.internal_name
  let provider := stripDQ row.provider
  if s.table.any (fun g => g.game_id == game_id) then
    { s with skipped := s.skipped + 1 }
  else
    { s with
      table := s.table ++ [⟨internal_name, game_id, internal_name, "groovetech", provider, "ACTIVE", true, clock s.calls⟩],
      inserted := s.inserted + 1,
      calls := s.calls + 1 }

/-- The row loop of import_games.py: any exception inside the loop
propagates to the single outer handler (lines 72-75), which prints the
error, rolls the whole transaction back and calls sys.exit(1); otherwise
the run commits once at the end and reports.  fail row models any
row-level exception for that row (missing column, SELECT or INSERT
error). -/
def impGo (clock : Nat → Nat) (fail : CsvRow → Bool) (s : ImpState) : List CsvRow → RunResult ImpState
  | [] => .report s
  | row :: rest =>
    if fail row then .exited 1
    else impGo clock fail (impStep clock s row) rest

/-- import_games of import_games.py run against a given games table. -/
def imp_import (clock : Nat → Nat) (fail : CsvRow → Bool) (tbl : List GameRowT) (rows : List CsvRow) : RunResult ImpState :=
  impGo clock fail ⟨tbl, 0, 0, 0⟩ rows

/-- Conflict policy of the spec's BatchMigrator (section 4.1). -/
inductive ConflictPolicy : Type where
  | skipExisting
  | updateExisting
  | insertAnyway
deriving Repr, DecidableEq

/-- A record of the spec's BatchMigrator, reduced to its key and an
opaque payload. -/
structure MigRec where
  key : String
  data : String
deriving Repr, DecidableEq

/-- Per-record state of the spec's BatchMigrator: the table visible in
the current transaction, the count of records consumed, and one counter
per outcome. -/
structure MigCore where
  table : List MigRec
  idx : Nat
  inserted : Nat
  updated : Nat
  skippedMissingKey : Nat
  skippedExists : Nat
  failed : Nat
deriving Repr, DecidableEq

/-- sink.exists(key) on the visible table. -/
def migExists (t : List MigRec) (k : String) : Bool := t.any (fun r => r.key == k)

/-- sink.update(key, record) on the visible table. -/
def migUpdate : List MigRec → MigRec → List MigRec
  | [], _ => []
  | g :: gs, r => if g.key == r.key then r :: gs else g :: migUpdate gs r

/-- Modelled from the spec: the repository has no batchSize-parametric
migrator under src/ (the scripts hardcode a commit every 100 rows), so
the per-record step of BatchMigrator.run follows section 4.1 of the
spec: extract the key and mark Skipped(missing-key) with no Sink call
when it is empty after trimming; otherwise a SinkError on the record's
Sink calls marks Failed for that record only (record-granular recovery,
section 4.3.c, no batch abort); otherwise insert, update or skip
according to the conflict policy, consulting sink.exists unless the
policy is InsertAnyway. -/
def migrateCore (policy : ConflictPolicy) (fail : MigRec → Bool) (c : MigCore) (r : MigRec) : MigCore :=
  if pyStrip r.key = "" then
    { c with idx := c.idx + 1, skippedMissingKey := c.skippedMissingKey + 1 }
  else if fail r then
    { c with idx := c.idx + 1, failed := c.failed + 1 }
  else
    match policy with
    | .insertAnyway =>
      { c with idx := c.idx + 1, table := c.table ++ [r], inserted := c.inserted + 1 }
    | .skipExisting =>
      if migExists c.table r.key then
        { c with idx := c.idx + 1, skippedExists := c.skippedExists + 1 }
      else
        { c with idx := c.idx + 1, table := c.table ++ [r], inserted := c.inserted + 1 }
    | .updateExisting =>
      if migExists c.table r.key then
        { c with idx := c.idx + 1, table := migUpdate c.table r, updated := c.updated + 1 }
      else
        { c with idx := c.idx + 1, table := c.table ++ [r], inserted := c.inserted + 1 }

/-- State of a BatchMigrator run: the per-record core plus the durable
table as of the last batch commit. -/
structure MigState where
  core : MigCore
  saved : List MigRec
deriving Repr, DecidableEq

/-- Modelled from the spec: one record of BatchMigrator.run, committing
the batch's transactional scope whenever a batch boundary (a multiple of
batchSize) is reached. -/
def migrateStep (batchSize : Nat) (policy : ConflictPolicy) (fail : MigRec → Bool) (st : MigState) (r : MigRec) : MigState :=
  let c := migrateCore policy fail st.core r
  { core := c, saved := if c.idx % batchSize = 0 then c.table else st.saved }

/-- Modelled from the spec: BatchMigrator.run of section 4.1, processing
the source sequence in order with a commit at every batch boundary and a
final commit after the last (possibly shorter) batch. -/
def migrateRun (batchSize : Nat) (policy : ConflictPolicy) (fail : MigRec → Bool) (tbl : List MigRec) (recs : List MigRec) : MigState :=
  let st := recs.foldl (migrateStep batchSize policy fail) ⟨⟨tbl, 0, 0, 0, 0, 0, 0⟩, tbl⟩
  { st with saved := st.core.table }

/-- A row of the transactions query of migrate_transactions_as_deposits
in migrate_postgres_to_clickhouse.py: (id, user_id, amount,
currency_code, status, created_at, updated_at), with the timestamps
optional (NULL at the source). -/
structure TxRow where
  id : Nat
  user_id : Nat
  amount : Int
  currency_code : String
  status : String
  created_at : Option Nat
  updated_at : Option Nat
deriving Repr, DecidableEq

/-- A row of tucanbit_analytics.deposits as inserted by
migrate_transactions_as_deposits. -/
structure DepositRow where
  id : String
  user_id : String
  amount : Int
  currency : String
  status : String
  created_at : Nat
  updated_at : Nat
deriving Repr, DecidableEq

/-- Python x or datetime.now(): when the left side is None the clock is
read at that moment, consuming one position of the call sequence;
otherwise no clock call is made. -/
def orNow (clock : Nat → Nat) (k : Nat) : Option Nat → Nat × Nat
  | some t => (t, k)
  | none => (clock k, k + 1)

/-- One element of the list comprehension of
migrate_transactions_as_deposits (line 68): the tuple's fields are
evaluated left to right, so the created_at default is read before the
updated_at default. -/
def depositTransformRow (clock : Nat → Nat) (k : Nat) (row : TxRow) : DepositRow × Nat :=
  let c := orNow clock k row.created_at
  let u := orNow clock c.2 row.updated_at
  (⟨toString row.id, toString row.user_id, row.amount, row.currency_code, row.status, c.1, u.1⟩, u.2)

/-- The list comprehension of migrate_transactions_as_deposits: the rows
are transformed in order, threading the datetime.now() call counter. -/
def depositTransform (clock : Nat → Nat) (k : Nat) : List TxRow → List DepositRow × Nat
  | [] => ([], k)
  | row :: rest =>
    let p := depositTransformRow clock k row
    let q := depositTransform clock p.2 rest
    (p.1 :: q.1, q.2)

/-- migrate_transactions_as_deposits of
migrate_postgres_to_clickhouse.py (lines 51-70): the rows inserted into
ClickHouse, with the first datetime.now() call of the run at clock
position 0. -/
def migrate_transactions_as_deposits (clock : Nat → Nat) (rows : List TxRow) : List DepositRow :=
  (depositTransform clock 0 rows).1

/-- A Python value as passed to escape_sql_string in
scripts/generate_seed_data.py: None, a str, or any other value (here an
int), which falls through to str(value). -/
inductive PyValue : Type where
  | pyNone
  | pyStr (s : String)
  | pyInt (n : Int)
deriving Repr, DecidableEq

/-- Python str() on the values generate_seed_data passes around. -/
def pyToString : PyValue → String
  | .pyNone => "None"
  | .pyStr s => s
  | .pyInt n => toString n

/-- value.replace applied to a single-quote character at the character
level: each single-quote character is replaced by two. -/
def escQuotes : List Char → List Char
  | [] => []
  | c :: cs => if c = '\'' then c :: c :: escQuotes cs else c :: escQuotes cs

/-- escape_sql_string of scripts/generate_seed_data.py (lines 54-60):
None becomes the unquoted keyword NULL, a str becomes a single-quoted
literal with each embedded quote doubled, anything else becomes
str(value). -/
def escape_sql_string : PyValue → String
  | .pyNone => "NULL"
  | .pyStr s => "'" ++ String.mk (escQuotes s.data) ++ "'"
  | v => pyToString v

/-- Reads a quoted-literal body back: a doubled quote is consumed as one
quote character and any unescaped single quote makes the body
ill-formed (none). -/
def unquoteBody : List Char → Option (List Char)
  | [] => some []
  | [c] => if c = '\'' then none else some [c]
  | c :: c2 :: cs =>
    if c = '\'' then
      if c2 = '\'' then (unquoteBody cs).map (fun r => c :: r) else none
    else (unquoteBody (c2 :: cs)).map (fun r => c :: r)

/-- The three-row input of the partial-failure example: the insert of
the second row raises, the other two succeed. -/
def c3rows : List CsvRow := [⟨"g1", "n1", "p"⟩, ⟨"g2", "n2", "p"⟩, ⟨"g3", "n3", "p"⟩]

/-- Failure predicate of the partial-failure example: only the row with
game_id g2 raises. -/
def c3fail (row : CsvRow) : Bool := row.game_id == "g2"

/-- Two CSV rows sharing game_id A: first named Foo, then Bar. -/
def c5rows : List CsvRow := [⟨"A", "Foo", "p"⟩, ⟨"A", "Bar", "p"⟩]

/-- A single well-formed CSV row used by the re-run examples. -/
def c7rows : List CsvRow := [⟨"g1", "n1", "p"⟩]

/-- Two transaction rows whose created_at is NULL at the source. -/
def c8rows : List TxRow :=
  [⟨1, 1, 5, "USD", "completed", none, some 99⟩,
   ⟨2, 2, 7, "USD", "completed", none, some 99⟩]

/-- A single well-formed CSV row used by the idempotence witness. -/
def c2rows : List CsvRow := [⟨"a", "b", "c"⟩]

/-- C5 evaluation: with conflict resolution via INSERT ... ON CONFLICT
DO UPDATE, feeding two rows with the same game_id A into an empty table
leaves a single row (the second payload), but because cursor.rowcount is
1 for both the insert and the update arm, the script counts both rows
in imported_count: the final counters are imported 2, updated 0, zero
errors,
not the inserted 1 / updated 1 the claim states. -/
theorem corrected_upsert_miscounts_update :
    (correctedRun (fun _ => false) [] c5rows).imported = 2 ∧
    (correctedRun (fun _ => false) [] c5rows).updated = 0 ∧
    (correctedRun (fun _ => false) [] c5rows).errors = 0 ∧
    (correctedRun (fun _ => false) [] c5rows).tx.table =
      [⟨"A", "Bar", "Bar", "p", "groovetech"⟩] := by decide

/-- C3 evaluation: in a 3-row batch where only the second row's insert
raises, the per-row handler's conn.rollback() reverts the connection to
the last commit, discarding the first row's uncommitted insert even
though it was counted in imported_count; the final committed table holds
only the third row. -/
theorem corrected_rollback_discards_batchmates :
    (correctedRun c3fail [] c3rows).errors = 1 ∧
    (correctedRun c3fail [] c3rows).imported = 2 ∧
    (correctedRun c3fail [] c3rows).tx.saved = [⟨"g3", "n3", "n3", "p", "groovetech"⟩] ∧
    ((correctedRun c3fail [] c3rows).tx.saved.any (fun g => g.game_id == "g1")) = false := by
  decide

/-- C7 counterexample: running import_games_simple twice with the same
single-row input does not double the rows carrying the input's key; the
script deletes the groovetech rows of the previous run first, so the key
g1 is held by exactly one row after the first run and still by exactly
one row after the second, not two. -/
theorem simple_rerun_does_not_double :
    ((simpleRun (fun _ => false) [] c7rows).tx.table.countP (fun g => g.game_id == "g1")) = 1 ∧
    ((simpleRun (fun _ => false)
        ((simpleRun (fun _ => false) [] c7rows).tx.table) c7rows).tx.table.countP
      (fun g => g.game_id == "g1")) = 1 := by decide

/-- C8 counterexample: with the clock advancing by one per call, two
transaction rows whose created_at is NULL receive the defaults 0 and 1,
two different values, so the substituted default is not a single
timestamp recorded once at the start of the run. -/
theorem deposit_defaults_differ :
    ((migrate_transactions_as_deposits (fun n => n) c8rows).map DepositRow.created_at) = [0, 1] ∧
    (0 : Nat) ≠ 1 := by decide

/-- C4 counterexample: in import_games.py a record-level problem (the
failure predicate fires on the only row) reaches the single outer
handler, which terminates the process via sys.exit(1); the run does not
return a report. -/
theorem imp_per_record_error_exits_process :
    imp_import (fun _ => 0) (fun _ => true) [] c2rows = .exited 1 ∧
    (imp_import (fun _ => 0) (fun _ => true) [] c2rows).isReport = false := by
  constructor <;> rfl

/-- Quote doubling never maps a nonempty character list to the empty
list. -/
theorem escQuotes_eq_nil {l : List Char} (h : escQuotes l = []) : l = [] := by
  cases l with
  | nil => rfl
  | cons c cs =>
    simp only [escQuotes] at h
    split at h <;> simp at h

/-- Unquoting inverts quote doubling: the escaped body parses back to
the original characters, so every quote between the delimiters is part
of an escaped pair. -/
theorem unquoteBody_escQuotes (l : List Char) : unquoteBody (escQuotes l) = some l := by
  induction l with
  | nil => rfl
  | cons c cs ih =>
    by_cases hc : c = '\''
    · subst hc
      simp [escQuotes, unquoteBody, ih]
    · cases hcs : escQuotes cs with
      | nil =>
        have : cs = [] := escQuotes_eq_nil hcs
        subst this
        simp [escQuotes, unquoteBody, hc]
      | cons d ds =>
        simp only [escQuotes, if_neg hc, hcs, unquoteBody, if_neg hc]
        rw [← hcs, ih]
        rfl

/-- C9: escape_sql_string is total and produces a well-formed SQL
literal: None maps to the unquoted keyword NULL, every string maps to a
single-quoted literal whose body is the string with each embedded quote
doubled (parsing the body back recovers the string, so no quote between
the delimiters is unescaped), and any other value maps to str(value). -/
theorem escape_sql_string_wellformed :
    escape_sql_string .pyNone = "NULL" ∧
    (∀ n : Int, escape_sql_string (.pyInt n) = toString n) ∧
    (∀ s : String,
        escape_sql_string (.pyStr s) = "'" ++ String.mk (escQuotes s.data) ++ "'" ∧
        unquoteBody (escQuotes s.data) = some s.data) :=
  ⟨rfl, fun _ => rfl, fun s => ⟨rfl, unquoteBody_escQuotes s.data⟩⟩

/-- C8 amended: a missing timestamp is defaulted to datetime.now()
evaluated at its own substitution (one clock call per missing field,
evaluated left to right), not to a value recorded once at run start: a
row with both timestamps NULL arriving with call counter k receives
clock k for created_at and clock (k+1) for updated_at and passes k+2 on
to the next row. -/
theorem deposit_default_reads_clock_per_field (clock : Nat → Nat) (k : Nat) (row : TxRow)
    (h1 : row.created_at = none) (h2 : row.updated_at = none) :
    (depositTransformRow clock k row).1.created_at = clock k ∧
    (depositTransformRow clock k row).1.updated_at = clock (k + 1) ∧
    (depositTransformRow clock k row).2 = k + 2 := by
  simp [depositTransformRow, orNow, h1, h2]

/-- C8 amended witness: with the identity clock and call counter 0, a
row with both timestamps NULL receives defaults 0 and 1 and advances the
counter to 2. -/
theorem deposit_default_reads_clock_per_field_witness :
    (depositTransformRow (fun n => n) 0 ⟨1, 1, 5, "USD", "completed", none, none⟩).1.created_at = 0 ∧
    (depositTransformRow (fun n => n) 0 ⟨1, 1, 5, "USD", "completed", none, none⟩).1.updated_at = 1 ∧
    (depositTransformRow (fun n => n) 0 ⟨1, 1, 5, "USD", "completed", none, none⟩).2 = 2 :=
  deposit_default_reads_clock_per_field (fun n => n) 0 ⟨1, 1, 5, "USD", "completed", none, none⟩ rfl rfl

/-- C1: a record whose game_id or internal_name is empty after trimming
is skipped with no Sink call, in the corrected script's step for every
commit interval, in the simple script's step, and — for any record with
an empty trimmed key — in the spec's BatchMigrator step under every
conflict policy: only the row counter and the corresponding skip counter
change, the connection and both tables are untouched (the scripts count
the skip in error_count while printing a skip message). -/
theorem missing_key_skipped_no_sink_call (fail : CsvRow → Bool) (row : CsvRow)
    (h : pyStrip row.game_id = "" ∨ pyStrip row.internal_name = "") :
    (∀ (B : Nat) (s : CorrectedState), correctedStepB B fail s row =
        { s with rowNum := s.rowNum + 1, errors := s.errors + 1 }) ∧
    (∀ s : SimpleState, simpleStep fail s row =
        { s with rowNum := s.rowNum + 1, errors := s.errors + 1 }) ∧
    (∀ (policy : ConflictPolicy) (mfail : MigRec → Bool) (c : MigCore) (r : MigRec),
        pyStrip r.key = "" →
          migrateCore policy mfail c r =
            { c with idx := c.idx + 1, skippedMissingKey := c.skippedMissingKey + 1 }) := by
  refine ⟨fun B s => ?_, fun s => ?_, fun policy mfail c r hr => ?_⟩
  · rcases h with h | h <;> simp [correctedStepB, h]
  · rcases h with h | h <;> simp [simpleStep, h]
  · simp [migrateCore, hr]

/-- C1 witness: a concrete row with an empty game_id is skipped by the
corrected script's step, leaving the connection untouched. -/
theorem missing_key_skipped_no_sink_call_witness :
    correctedStepB 100 (fun _ => false) ⟨⟨[], []⟩, 0, 0, 0, 0⟩ ⟨"", "n", "p"⟩ =
      ⟨⟨[], []⟩, 1, 0, 0, 1⟩ :=
  (missing_key_skipped_no_sink_call (fun _ => false) ⟨"", "n", "p"⟩
    (Or.inl (by decide))).1 100 ⟨⟨[], []⟩, 0, 0, 0, 0⟩

/-- The affected-row count of the upsert is 1 whether the row was
inserted or replaced. -/
theorem upsertRow_rc (t : List GameRow) (r : GameRow) : (upsertRow t r).2 = 1 := by
  induction t with
  | nil => rfl
  | cons g gs ih =>
    simp only [upsertRow]
    split
    · rfl
    · simpa using ih

/-- One corrected-script step consumes exactly one row and increments
exactly one of the three counters: the error counter when the key is
missing or the row's statement raises, the imported counter otherwise
(the updated counter is unreachable because the upsert's rowcount is
always 1). -/
theorem correctedStepB_counters (B : Nat) (fail : CsvRow → Bool) (s : CorrectedState) (row : CsvRow) :
    (correctedStepB B fail s row).rowNum = s.rowNum + 1 ∧
    ((correctedStepB B fail s row).imported,
      (correctedStepB B fail s row).updated,
      (correctedStepB B fail s row).errors) =
      (if pyStrip row.game_id = "" ∨ pyStrip row.internal_name = "" then
        (s.imported, s.updated, s.errors + 1)
      else if fail row then (s.imported, s.updated, s.errors + 1)
      else (s.imported + 1, s.updated, s.errors)) := by
  simp only [correctedStepB, upsertRow_rc]
  split_ifs <;> simp_all

/-- One corrected-script step adds exactly one unit to the sum of the
three counters. -/
theorem correctedStepB_sum (B : Nat) (fail : CsvRow → Bool) (s : CorrectedState) (row : CsvRow) :
    (correctedStepB B fail s row).imported + (correctedStepB B fail s row).updated +
      (correctedStepB B fail s row).errors = s.imported + s.updated + s.errors + 1 := by
  have h := (correctedStepB_counters B fail s row).2
  split_ifs at h <;> (simp only [Prod.mk.injEq] at h; omega)

/-- Corrected-script counters over a fold: the row counter advances by
the number of rows and the three counters absorb exactly one unit per
row, for every commit interval. -/
theorem correctedFoldB_counters (B : Nat) (fail : CsvRow → Bool) (rows : List CsvRow) :
    ∀ s : CorrectedState,
      (rows.foldl (correctedStepB B fail) s).rowNum = s.rowNum + rows.length ∧
      (rows.foldl (correctedStepB B fail) s).imported +
        (rows.foldl (correctedStepB B fail) s).updated +
        (rows.foldl (correctedStepB B fail) s).errors =
        s.imported + s.updated + s.errors + rows.length := by
  induction rows with
  | nil => intro s; simp
  | cons row rest ih =>
    intro s
    have hstep := (correctedStepB_counters B fail s row).1
    have hsum := correctedStepB_sum B fail s row
    have hr := ih (correctedStepB B fail s row)
    simp only [List.foldl_cons, List.length_cons]
    constructor
    · rw [hr.1, hstep]; omega
    · rw [hr.2]; omega

/-- C10: every CSV row consumed by the corrected import increments
exactly one of imported_count, updated_count, error_count (one unit per
step), so after a run over any row list — in particular over any prefix
of a longer input, which is a run on that prefix — the three counters
sum to the number of rows consumed, and the printed Total processed
(imported plus updated) equals rows read minus errors. -/
theorem corrected_counters_partition (fail : CsvRow → Bool) (tbl : List GameRow) (rows : List CsvRow) :
    (∀ (s : CorrectedState) (row : CsvRow),
        (correctedStep fail s row).imported + (correctedStep fail s row).updated +
          (correctedStep fail s row).errors = s.imported + s.updated + s.errors + 1) ∧
    (correctedRun fail tbl rows).rowNum = rows.length ∧
    (correctedRun fail tbl rows).imported + (correctedRun fail tbl rows).updated +
      (correctedRun fail tbl rows).errors = rows.length ∧
    (correctedRun fail tbl rows).imported + (correctedRun fail tbl rows).updated =
      rows.length - (correctedRun fail tbl rows).errors := by
  have h := correctedFoldB_counters 100 fail rows (correctedInit tbl)
  refine ⟨fun s row => correctedStepB_sum 100 fail s row, ?_, ?_, ?_⟩ <;>
    simp only [correctedRun, correctedRunB, correctedInit] at h ⊢ <;> omega

/-- The core of a BatchMigrator fold does not depend on the batch size:
a batch commit only copies the visible table into the durable slot. -/
theorem migrateFold_core (B : Nat) (policy : ConflictPolicy) (fail : MigRec → Bool) (recs : List MigRec) :
    ∀ st : MigState,
      (recs.foldl (migrateStep B policy fail) st).core =
        recs.foldl (migrateCore policy fail) st.core := by
  induction recs with
  | nil => intro st; rfl
  | cons r rest ih =>
    intro st
    simp only [List.foldl_cons]
    rw [ih]
    rfl

/-- Two corrected-script folds with different commit intervals agree on
the row counter and all three outcome counters, because each step's
counter increments depend only on the row and the counters so far. -/
theorem correctedFoldB_counters_eq (B1 B2 : Nat) (fail : CsvRow → Bool) (rows : List CsvRow) :
    ∀ s1 s2 : CorrectedState,
      s1.rowNum = s2.rowNum → s1.imported = s2.imported → s1.updated = s2.updated →
      s1.errors = s2.errors →
      ((rows.foldl (correctedStepB B1 fail) s1).rowNum =
          (rows.foldl (correctedStepB B2 fail) s2).rowNum ∧
        (rows.foldl (correctedStepB B1 fail) s1).imported =
          (rows.foldl (correctedStepB B2 fail) s2).imported ∧
        (rows.foldl (correctedStepB B1 fail) s1).updated =
          (rows.foldl (correctedStepB B2 fail) s2).updated ∧
        (rows.foldl (correctedStepB B1 fail) s1).errors =
          (rows.foldl (correctedStepB B2 fail) s2).errors) := by
  induction rows with
  | nil => intro s1 s2 h1 h2 h3 h4; exact ⟨h1, h2, h3, h4⟩
  | cons row rest ih =>
    intro s1 s2 h1 h2 h3 h4
    have a1 := correctedStepB_counters B1 fail s1 row
    have a2 := correctedStepB_counters B2 fail s2 row
    have e : ((correctedStepB B1 fail s1 row).imported,
        (correctedStepB B1 fail s1 row).updated,
        (correctedStepB B1 fail s1 row).errors) =
        ((correctedStepB B2 fail s2 row).imported,
          (correctedStepB B2 fail s2 row).updated,
          (correctedStepB B2 fail s2 row).errors) := by
      rw [a1.2, a2.2, h2, h3, h4]
    simp only [Prod.mk.injEq] at e
    simp only [List.foldl_cons]
    exact ih _ _ (by rw [a1.1, a2.1, h1]) e.1 e.2.1 e.2.2

/-- C6: batch boundaries do not affect per-record outcomes or the final
counts: the spec's BatchMigrator produces the same core (visible table,
record index and every outcome counter) for any two batch sizes, and the
corrected script's loop produces the same four counters for any two
commit intervals — in particular for batchSize 1 versus the whole
input's length. -/
theorem batch_size_does_not_affect_counts (policy : ConflictPolicy) (fail : MigRec → Bool)
    (tbl : List MigRec) (recs : List MigRec) (B1 B2 : Nat)
    (cfail : CsvRow → Bool) (ctbl : List GameRow) (rows : List CsvRow) :
    (migrateRun B1 policy fail tbl recs).core = (migrateRun B2 policy fail tbl recs).core ∧
    ((correctedRunB B1 cfail ctbl rows).rowNum = (correctedRunB B2 cfail ctbl rows).rowNum ∧
      (correctedRunB B1 cfail ctbl rows).imported = (correctedRunB B2 cfail ctbl rows).imported ∧
      (correctedRunB B1 cfail ctbl rows).updated = (correctedRunB B2 cfail ctbl rows).updated ∧
      (correctedRunB B1 cfail ctbl rows).errors = (correctedRunB B2 cfail ctbl rows).errors) := by
  constructor
  · simp [migrateRun, migrateFold_core]
  · have h := correctedFoldB_counters_eq B1 B2 cfail rows (correctedInit ctbl)
      (correctedInit ctbl) rfl rfl rfl rfl
    simpa [correctedRunB] using h

/-- The import_games.py loop with no failing row reports the plain fold
of its per-row step. -/
theorem impGo_noFail (clock : Nat → Nat) (rows : List CsvRow) :
    ∀ s : ImpState, impGo clock (fun _ => false) s rows =
      .report (rows.foldl (impStep clock) s) := by
  induction rows with
  | nil => intro s; rfl
  | cons row rest ih =>
    intro s
    simpa [impGo] using ih (impStep clock s row)

/-- A key visible in the table stays visible across the import loop: the
loop only appends rows. -/
theorem impFold_key_mono (clock : Nat → Nat) (rows : List CsvRow) :
    ∀ (s : ImpState) (k : String),
      s.table.any (fun g => g.game_id == k) = true →
      ((rows.foldl (impStep clock) s).table.any (fun g => g.game_id == k)) = true := by
  induction rows with
  | nil => intro s k h; exact h
  | cons row rest ih =>
    intro s k h
    simp only [List.foldl_cons]
    apply ih
    simp only [impStep]
    split
    · exact h
    · simp [List.any_append, h]

/-- After the import loop runs, the key of every processed row is
visible in the table: the row was either found to exist already or
inserted. -/
theorem impFold_covers (clock : Nat → Nat) (rows : List CsvRow) :
    ∀ (s : ImpState) (r : CsvRow), r ∈ rows →
      ((rows.foldl (impStep clock) s).table.any
        (fun g => g.game_id == stripDQ r.game_id)) = true := by
  induction rows with
  | nil => intro s r h; cases h
  | cons row rest ih =>
    intro s r hr
    rcases List.mem_cons.mp hr with h | h
    · subst h
      simp only [List.foldl_cons]
      apply impFold_key_mono
      simp only [impStep]
      split
      · next hin => exact hin
      · simp [List.any_append]
    · simp only [List.foldl_cons]
      exact ih _ r h

/-- When every row's key is already visible, the import loop only counts
skips: the table, the insert counter and the clock are untouched. -/
theorem impFold_all_skip (clock : Nat → Nat) (rows : List CsvRow) :
    ∀ s : ImpState,
      (∀ r ∈ rows, (s.table.any (fun g => g.game_id == stripDQ r.game_id)) = true) →
      rows.foldl (impStep clock) s = { s with skipped := s.skipped + rows.length } := by
  induction rows with
  | nil => intro s h; simp
  | cons row rest ih =>
    intro s h
    have hhead := h row (List.mem_cons_self row rest)
    have hstep : impStep clock s row = { s with skipped := s.skipped + 1 } := by
      simp [impStep, hhead]
    simp only [List.foldl_cons, hstep, List.length_cons]
    rw [ih { s with skipped := s.skipped + 1 }
      (fun r hr => h r (List.mem_cons_of_mem row hr))]
    simp only [ImpState.mk.injEq, true_and, and_true]
    omega

/-- C2: with the SkipExisting behavior of import_games.py, a second run
over the same rows against the table produced by a first run inserts
nothing: every record is skipped via the existence check and the table
(the Sink) is left exactly as the first run left it. -/
theorem imp_second_run_all_skipped (clock1 clock2 : Nat → Nat) (tbl : List GameRowT)
    (rows : List CsvRow) (st1 : ImpState)
    (hkeys : ∀ r ∈ rows, stripDQ r.game_id ≠ "")
    (h1 : imp_import clock1 (fun _ => false) tbl rows = .report st1) :
    imp_import clock2 (fun _ => false) st1.table rows =
      .report ⟨st1.table, 0, rows.length, 0⟩ := by
  have e1 : st1 = rows.foldl (impStep clock1) ⟨tbl, 0, 0, 0⟩ := by
    rw [imp_import, impGo_noFail clock1 rows ⟨tbl, 0, 0, 0⟩] at h1
    simp only [RunResult.report.injEq] at h1
    exact h1.symm
  have hcov : ∀ r ∈ rows,
      ((⟨st1.table, 0, 0, 0⟩ : ImpState).table.any
        (fun g => g.game_id == stripDQ r.game_id)) = true := by
    intro r hr
    have hc := impFold_covers clock1 rows ⟨tbl, 0, 0, 0⟩ r hr
    rw [← e1] at hc
    exact hc
  rw [imp_import, impGo_noFail clock2 rows ⟨st1.table, 0, 0, 0⟩,
    impFold_all_skip clock2 rows ⟨st1.table, 0, 0, 0⟩ hcov]
  simp

/-- C2 witness: a first run of import_games.py over one concrete row
inserts it; the second run over the same row against the resulting table
skips it and inserts nothing, leaving the table unchanged. -/
theorem imp_second_run_all_skipped_witness :
    imp_import (fun n => n) (fun _ => false)
        [⟨"b", "a", "b", "groovetech", "c", "ACTIVE", true, 0⟩] c2rows =
      .report ⟨[⟨"b", "a", "b", "groovetech", "c", "ACTIVE", true, 0⟩], 0, 1, 0⟩ :=
  imp_second_run_all_skipped (fun n => n) (fun n => n) [] c2rows
    ⟨[⟨"b", "a", "b", "groovetech", "c", "ACTIVE", true, 0⟩], 1, 0, 1⟩
    (by decide) (by decide)

/-- A failing record anywhere in the remaining rows makes the loop of
the script import_games.py exit the process with status 1. -/
theorem impGo_exits (clock : Nat → Nat) (fail : CsvRow → Bool) (rows : List CsvRow) :
    ∀ (s : ImpState) (r : CsvRow), r ∈ rows → fail r = true →
      impGo clock fail s rows = .exited 1 := by
  induction rows with
  | nil => intro s r h; cases h
  | cons row rest ih =>
    intro s r hr hf
    by_cases hx : fail row = true
    · simp [impGo, hx]
    · rcases List.mem_cons.mp hr with h | h
      · subst h; exact absurd hf hx
      · simp only [impGo, if_neg hx]
        exact ih _ r h hf

/-- C4 amended: per-record problems never escape the corrected script —
its inner per-row handler absorbs them and the run always returns its
report — while import_games.py routes any record-level error to its
single outer handler, which rolls the transaction back and terminates
the process with exit status 1 instead of returning a report. -/
theorem per_record_error_boundary (rows : List CsvRow) (fail : CsvRow → Bool) :
    (∀ tbl : List GameRow, (corrected_import true fail tbl rows).isReport = true) ∧
    (∀ (clock : Nat → Nat) (tbl : List GameRowT) (r : CsvRow), r ∈ rows → fail r = true →
        imp_import clock fail tbl rows = .exited 1) := by
  constructor
  · intro tbl; rfl
  · intro clock tbl r hr hf
    exact impGo_exits clock fail rows ⟨tbl, 0, 0, 0⟩ r hr hf

/-- C4 amended witness: import_games.py over one concrete row whose
insert raises exits the process with status 1. -/
theorem per_record_error_boundary_witness :
    imp_import (fun n => n) (fun _ => true) [] c2rows = .exited 1 :=
  (per_record_error_boundary c2rows (fun _ => true)).2 (fun n => n) [] ⟨"a", "b", "c"⟩
    (by decide) rfl

/-- One simple-script step preserves the non-groovetech part of both the
visible and the committed table: every inserted row carries the
groovetech partner and rollback only restores the committed table. -/
theorem simpleStep_nonGroove (fail : CsvRow → Bool) (st : SimpleState) (row : CsvRow)
    (A : List GameRow)
    (h1 : st.tx.table.filter (fun g => !(isGroove g)) = A)
    (h2 : st.tx.saved.filter (fun g => !(isGroove g)) = A) :
    ((simpleStep fail st row).tx.table.filter (fun g => !(isGroove g)) = A ∧
      (simpleStep fail st row).tx.saved.filter (fun g => !(isGroove g)) = A) := by
  simp only [simpleStep]
  split
  · exact ⟨h1, h2⟩
  · split
    · exact ⟨h2, h2⟩
    · split
      · exact ⟨h2, h2⟩
      · next t heq =>
        have hfil : t.filter (fun g => !(isGroove g)) = A := by
          simp only [plainInsert] at heq
          split at heq
          · exact Option.noConfusion heq
          · have he : st.tx.table ++
                [({ game_id := pyStrip row.game_id, name := pyStrip row.internal_name,
                    internal_name := pyStrip row.internal_name,
                    provider := pyStrip row.provider,
                    integration_partner := "groovetech" } : GameRow)] = t :=
              (Option.some.injEq _ _).mp heq
            rw [← he]
            simpa [List.filter_append, isGroove] using h1
        split
        · exact ⟨hfil, hfil⟩
        · exact ⟨hfil, h2⟩

/-- Across the whole simple-script loop, the non-groovetech part of both
the visible and the committed table is invariant. -/
theorem simpleFold_nonGroove (fail : CsvRow → Bool) (rows : List CsvRow) :
    ∀ (st : SimpleState) (A : List GameRow),
      st.tx.table.filter (fun g => !(isGroove g)) = A →
      st.tx.saved.filter (fun g => !(isGroove g)) = A →
      (((rows.foldl (simpleStep fail) st).tx.table.filter (fun g => !(isGroove g)) = A) ∧
        ((rows.foldl (simpleStep fail) st).tx.saved.filter (fun g => !(isGroove g)) = A)) := by
  induction rows with
  | nil => intro st A h1 h2; exact ⟨h1, h2⟩
  | cons row rest ih =>
    intro st A h1 h2
    have h := simpleStep_nonGroove fail st row A h1 h2
    simp only [List.foldl_cons]
    exact ih _ A h.1 h.2

/-- The simple script's result depends on the initial table only through
its non-groovetech part, because the opening DELETE removes every
groovetech row before the loop starts. -/
theorem simpleRun_congr_filter (fail : CsvRow → Bool) (rows : List CsvRow)
    (t1 t2 : List GameRow)
    (h : t1.filter (fun g => !(isGroove g)) = t2.filter (fun g => !(isGroove g))) :
    simpleRun fail t1 rows = simpleRun fail t2 rows := by
  simp only [simpleRun]
  rw [h]

/-- C7 amended: re-running import_games_simple.py with the same input
reproduces the single-run state instead of doubling the Sink's rows for
the input's keys: the script's opening DELETE removes exactly the
groovetech rows the previous run inserted, so the second run starts from
the same cleared table and ends in the same final state. -/
theorem simple_rerun_idempotent (fail : CsvRow → Bool) (tbl : List GameRow)
    (rows : List CsvRow) :
    simpleRun fail (simpleRun fail tbl rows).tx.table rows = simpleRun fail tbl rows := by
  have hidem : (tbl.filter (fun g => !(isGroove g))).filter (fun g => !(isGroove g)) =
      tbl.filter (fun g => !(isGroove g)) := by
    simp [List.filter_filter]
  have h := simpleFold_nonGroove fail rows
    ⟨⟨tbl.filter (fun g => !(isGroove g)), tbl.filter (fun g => !(isGroove g))⟩, 0, 0, 0⟩
    (tbl.filter (fun g => !(isGroove g))) hidem hidem
  have htable : (simpleRun fail tbl rows).tx.table.filter (fun g => !(isGroove g)) =
      tbl.filter (fun g => !(isGroove g)) := by
    simpa [simpleRun, TxTable.commit] using h.1
  exact simpleRun_congr_filter fail rows _ tbl htable
